import Mathlib

set_option maxHeartbeats 1000000

/-
Shallow embedding of src/src/valhalla_run_route.cc: the adaptive
route-search orchestration layer of the valhalla_run_route tool.
The statistics record (PathStatistics), the multi-pass retry protocol
(PathTest), the per-leg algorithm selection, the connectivity pre-check
and the costing-option merge (get_costing) are translated directly from
the source. External collaborators (the graph reader, the actual search
algorithms, the trip-path and directions builders, the connectivity map,
the location correlation) are modelled as oracles supplied in an
environment structure; their results are arbitrary data the orchestration
reacts to, exactly as the source does.
-/

/-- The uint32 modulus; the statistics counters in the source are 32-bit
unsigned integers and the only arithmetic on them is increment and add. -/
def U32 : Nat := 2 ^ 32

/-- One field of the emitted statistics record (the log line is a comma
separated list of floats, a string and unsigned integers; floats are
modelled as rationals). -/
inductive StatField where
  | rat (q : Rat)
  | str (s : String)
  | nat (n : Nat)
deriving DecidableEq, Repr

/-- PathStatistics (lines 42-73): the per-request diagnostic counters. -/
structure PathStatistics where
  origin : Rat × Rat
  destination : Rat × Rat
  success : String
  passes : Nat
  runtime : Nat
  trip_time : Nat
  trip_dist : Rat
  arc_dist : Rat
  manuevers : Nat
deriving DecidableEq, Repr

/-- The PathStatistics constructor (lines 54-57): success starts as the
string false, every counter value-initialised to zero. -/
def PathStatistics.init (p1 p2 : Rat × Rat) : PathStatistics :=
  { origin := p1, destination := p2, success := "false",
    passes := 0, runtime := 0, trip_time := 0,
    trip_dist := 0, arc_dist := 0, manuevers := 0 }

def PathStatistics.setSuccess (d : PathStatistics) (s : String) : PathStatistics :=
  { d with success := s }

def PathStatistics.incPasses (d : PathStatistics) : PathStatistics :=
  { d with passes := (d.passes + 1) % U32 }

def PathStatistics.addRuntime (d : PathStatistics) (msec : Nat) : PathStatistics :=
  { d with runtime := (d.runtime + msec) % U32 }

def PathStatistics.setTripTime (d : PathStatistics) (t : Nat) : PathStatistics :=
  { d with trip_time := t }

def PathStatistics.setTripDist (d : PathStatistics) (x : Rat) : PathStatistics :=
  { d with trip_dist := x }

def PathStatistics.setArcDist (d : PathStatistics) (x : Rat) : PathStatistics :=
  { d with arc_dist := x }

def PathStatistics.setManuevers (d : PathStatistics) (n : Nat) : PathStatistics :=
  { d with manuevers := n }

/-- PathStatistics::log (lines 66-72): the emitted record, eleven fields in
the fixed order of the format string. -/
def PathStatistics.log (d : PathStatistics) : List StatField :=
  [StatField.rat d.origin.1, StatField.rat d.origin.2,
   StatField.rat d.destination.1, StatField.rat d.destination.2,
   StatField.str d.success, StatField.nat d.passes, StatField.nat d.runtime,
   StatField.nat d.trip_time, StatField.rat d.trip_dist, StatField.rat d.arc_dist,
   StatField.nat d.manuevers]

/-- The mutable relaxation state of a DynamicCost instance, as the
orchestration layer sees it: the multi-pass eligibility flag, whether and
with what arguments RelaxHierarchyLimits was applied, and whether
DisableHighwayTransitions was applied.  The scoring internals are out of
scope (external collaborator). -/
structure CostModel where
  allowMultiPass : Bool
  relaxedHierarchy : Option (Bool × Rat)
  highwayTransitionsDisabled : Bool
deriving DecidableEq, Repr

def RelaxHierarchyLimits (c : CostModel) (using_astar : Bool) (ewf : Rat) : CostModel :=
  { c with relaxedHierarchy := some (using_astar, ewf) }

def DisableHighwayTransitions (c : CostModel) : CostModel :=
  { c with highwayTransitionsDisabled := true }

/-- Line 95: computed by PathTest but never passed on (the call on line 97
takes using_astar and the expansion factor). -/
def relax_factor (using_astar : Bool) : Rat := if using_astar then 16 else 8

/-- Line 96. -/
def expansion_within_factor (using_astar : Bool) : Rat := if using_astar then 4 else 2

/-- The trip path handed back by the external TripPathBuilder; only the
node count is inspected by main (line 685). -/
structure TripPath where
  nodes : List Nat
deriving DecidableEq, Repr

/-- Engine interaction events of one leg, in program order: a Clear of the
path algorithm internal state, or a GetBestPath invocation.  counted marks
the pass-counted attempts of the retry protocol; the diagnostic multi-run
re-issues (lines 137-148) are uncounted. -/
inductive Event where
  | clear
  | search (counted : Bool)
deriving DecidableEq, BEq, Repr

/-- The external collaborators of one leg: the search engine result as a
function of the current cost-model state, the trip-path builder, and the
directions summary (time, length, maneuver count). -/
structure LegEnv where
  GetBestPath : CostModel → List Nat
  BuildTrip : List Nat → List Nat
  DirectionsSummary : List Nat → Nat × Rat × Nat

def defaultLegEnv : LegEnv :=
  { GetBestPath := fun _ => [], BuildTrip := fun _ => [],
    DirectionsSummary := fun _ => (0, 0, 0) }

/-- Result of one PathTest call: the trip path (empty on failure), the
updated statistics, the updated cost model, and the engine event trace. -/
structure LegOutcome where
  trip : TripPath
  stats : PathStatistics
  cost : CostModel
  trace : List Event
deriving DecidableEq, Repr

/-- The multi-run diagnostic loop events (lines 137-148): each iteration
re-issues the search (uncounted) and clears the engine. -/
def multiRunEvents : Nat → List Event
  | 0 => []
  | n + 1 => Event.search false :: Event.clear :: multiRunEvents n

/-- Tail of PathTest once a non-empty path was found (lines 117-149):
build the trip path, clear the engine once more, then optionally re-run
the already successful search for timing. -/
def successTail (env : LegEnv) (cost : CostModel) (stats : PathStatistics)
    (pathedges : List Nat) (trace : List Event) (multi_run : Bool)
    (iterations : Nat) : LegOutcome :=
  { trip := { nodes := env.BuildTrip pathedges },
    stats := stats, cost := cost,
    trace := (trace ++ [Event.clear]) ++
      (if multi_run then multiRunEvents iterations else []) }

/-- The second empty-path check of PathTest (lines 102-116): a third pass
happens only with the astar (direct) strategy; it disables highway
transitions on the cost model, clears the engine and searches once more. -/
def thirdPass (env : LegEnv) (cost : CostModel) (stats : PathStatistics)
    (trace : List Event) (multi_run : Bool) (iterations : Nat)
    (using_astar : Bool) : LegOutcome :=
  if using_astar then
    let c := DisableHighwayTransitions cost
    let p := env.GetBestPath c
    let s := stats.incPasses
    let tr := trace ++ [Event.clear, Event.search true]
    if p = [] then { trip := { nodes := [] }, stats := s, cost := c, trace := tr }
    else successTail env c s p tr multi_run iterations
  else { trip := { nodes := [] }, stats := stats, cost := cost, trace := trace }

/-- PathTest (lines 79-150): the multi-pass retry protocol for one leg.
Pass 1 always runs and is counted.  If it is empty and the cost model
allows multi pass, the engine is cleared, hierarchy limits are relaxed and
pass 2 runs.  If the result is still empty, thirdPass applies. -/
def PathTest (env : LegEnv) (cost : CostModel) (stats : PathStatistics)
    (multi_run : Bool) (iterations : Nat) (using_astar : Bool) : LegOutcome :=
  let p1 := env.GetBestPath cost
  let s1 := stats.incPasses
  if p1 = [] then
    if cost.allowMultiPass then
      let c2 := RelaxHierarchyLimits cost using_astar (expansion_within_factor using_astar)
      let p2 := env.GetBestPath c2
      let s2 := s1.incPasses
      if p2 = [] then
        thirdPass env c2 s2
          [Event.search true, Event.clear, Event.search true] multi_run iterations using_astar
      else
        successTail env c2 s2 p2
          [Event.search true, Event.clear, Event.search true] multi_run iterations
    else thirdPass env cost s1 [Event.search true] multi_run iterations using_astar
  else successTail env cost s1 p1 [Event.search true] multi_run iterations

/-- A candidate edge of a path location: its graph edge id and the
unreachable flag read back from the tile (lines 701-726 inspect it). -/
structure Candidate where
  id : Nat
  unreachable : Bool
deriving DecidableEq, Repr

/-- The candidate edge set the external location correlation produced for
one waypoint. -/
structure PathLocation where
  edges : List Candidate
deriving DecidableEq, Repr

inductive Algo where
  | mm
  | bd
  | astar
deriving DecidableEq, BEq, Repr

/-- Algorithm choice per leg (main, lines 656-672): multimodal and
pedestrian route types are fixed; otherwise bidirectional is used except
that astar (direct) is chosen when some origin candidate and some
destination candidate carry the same edge id. -/
def chooseAlgorithm (routetype : String) (o d : PathLocation) : Algo :=
  if routetype = "multimodal" then Algo.mm
  else if routetype = "pedestrian" then Algo.bd
  else if o.edges.any (fun e1 => d.edges.any (fun e2 => e1.id == e2.id)) then Algo.astar
  else Algo.bd

/-- Outcome classification of a failed leg (lines 729-737). -/
def classify (unreachable_origin unreachable_dest : Bool) : String :=
  if unreachable_origin && unreachable_dest then "fail_unreachable_locations"
  else if unreachable_origin then "fail_unreachable_origin"
  else if unreachable_dest then "fail_unreachable_dest"
  else "fail_no_route"

/-- The request-level environment: the parsed waypoints, the per-waypoint
results of the external location correlation (none models a throw), the
per-waypoint connectivity colors of the external connectivity map, the
per-leg search oracles, the route type, the two command line flags, and
the externally computed crow-flies distances and wall times. -/
structure Env where
  locations : List (Rat × Rat)
  searchLoc : List (Option PathLocation)
  colorsOf : List (List Nat)
  legEnvs : List LegEnv
  routetype : String
  connectivity : Bool
  multi_run : Bool
  iterations : Nat
  crowDist : List Rat
  units_miles : Bool
  totalMs : Nat

def legUsingAstar (env : Env) (pl : List PathLocation) (i : Nat) : Bool :=
  chooseAlgorithm env.routetype (pl.getD i { edges := [] })
    (pl.getD (i + 1) { edges := [] }) == Algo.astar

/-- The PathTest invocation of leg i of the main loop (line 677). -/
def legPathTest (env : Env) (pl : List PathLocation) (i : Nat)
    (stats : PathStatistics) (cost : CostModel) : LegOutcome :=
  PathTest (env.legEnvs.getD i defaultLegEnv) cost stats env.multi_run
    env.iterations (legUsingAstar env pl i)

/-- One iteration of the main leg loop (lines 655-738): run PathTest, then
either record the directions summary and success, or classify the failure
from the candidate reachability flags of the two endpoints. -/
def runLeg (env : Env) (pl : List PathLocation) (i : Nat)
    (stats : PathStatistics) (cost : CostModel) :
    PathStatistics × CostModel × List Event :=
  let r := legPathTest env pl i stats cost
  if r.trip.nodes.length > 0 then
    let summary := (env.legEnvs.getD i defaultLegEnv).DirectionsSummary r.trip.nodes
    let s := (((r.stats.setTripTime summary.1).setTripDist summary.2.1).setManuevers
      summary.2.2).setSuccess "success"
    (s, r.cost, r.trace)
  else
    let uo := (pl.getD i { edges := [] }).edges.any (fun e => e.unreachable)
    let ud := (pl.getD (i + 1) { edges := [] }).edges.any (fun e => e.unreachable)
    (r.stats.setSuccess (classify uo ud), r.cost, r.trace)

/-- The main leg loop, k legs starting at index i; the statistics and the
shared cost model thread through, the traces concatenate. -/
def runLegs (env : Env) (pl : List PathLocation) :
    Nat → Nat → PathStatistics → CostModel →
    PathStatistics × CostModel × List Event
  | _, 0, stats, cost => (stats, cost, [])
  | i, k + 1, stats, cost =>
    let r := runLeg env pl i stats cost
    let r2 := runLegs env pl (i + 1) k r.1 r.2.1
    (r2.1, r2.2.1, r.2.2 ++ r2.2.2)

/-- The location correlation loop (lines 607-616): push each result,
failing at the first throw. -/
def collectSome : List (Option PathLocation) → Option (List PathLocation)
  | [] => some []
  | none :: _ => none
  | some x :: rest => (collectSome rest).map (fun l => x :: l)

/-- One step of the color-count accumulation (lines 623-629): bump the
count of a color in the count map. -/
def bumpColor : List (Nat × Nat) → Nat → List (Nat × Nat)
  | [], c => [(c, 1)]
  | (k, cnt) :: rest, c =>
    if k = c then (k, cnt + 1) :: rest else (k, cnt) :: bumpColor rest c

def colorCounts (colors : List Nat) : List (Nat × Nat) :=
  colors.foldl bumpColor []

/-- The connectivity verdict as the code computes it (lines 618-638): the
color counts are built from the colors of the LAST path location only
(line 622 queries path_location.back() and no other), and the request is
connected iff some count equals the number of locations. -/
def codeConnected (colors : List Nat) (numLocations : Nat) : Bool :=
  (colorCounts colors).any (fun p => p.2 == numLocations)

/-- Modelled from the spec: the ConnectivityPreflight contract of the spec
(section 4.3), which is not what the code under src computes.  Colors are
taken from the destination candidates; for every other waypoint of the
request the count of a color includes whether that waypoint candidates
belong to it; the request is connected iff some color count equals the
number of waypoints.  The per-waypoint color sets come from the external
connectivity map, modelled by the colorsOf oracle. -/
def specConnected (colorsOf : List (List Nat)) : Bool :=
  let destColors := (colorsOf.getLast?).getD []
  destColors.any (fun c =>
    (colorsOf.filter (fun ls => ls.contains c)).length == colorsOf.length)

/-- The kMilePerKm conversion constant. -/
def kMilePerKm : Rat := 621371 / 1000000

/-- The main flow from the statistics construction (line 552) to the final
log (line 753): returns the exit-failure flag, the final statistics and
the concatenated engine event trace of all legs. -/
def mainStats (env : Env) (cost : CostModel) :
    Bool × PathStatistics × List Event :=
  let n := env.locations.length - 1
  let stats := PathStatistics.init (env.locations.getD 0 (0, 0))
    (env.locations.getD n (0, 0))
  let d1 : Rat := env.crowDist.foldl (fun a b => a + b) 0
  match collectSome env.searchLoc with
  | none => (true, stats.setSuccess "fail_invalid_origin", [])
  | some pl =>
    if env.connectivity &&
        !(codeConnected ((env.colorsOf.getLast?).getD []) env.locations.length) then
      (true, stats.setSuccess "fail_no_connectivity", [])
    else
      let r := runLegs env pl 0 n stats cost
      let d2 := if env.units_miles then d1 * kMilePerKm else d1
      (false, (r.1.setArcDist d2).addRuntime env.totalMs, r.2.2)

/-- The observable outcome of one run: exit status, the emitted record,
the final statistics and the engine event trace. -/
structure RunResult where
  exit_failure : Bool
  record : List StatField
  stats : PathStatistics
  trace : List Event

def runMain (env : Env) (cost : CostModel) : RunResult :=
  let r := mainStats env cost
  { exit_failure := r.1, record := r.2.1.log, stats := r.2.1, trace := r.2.2 }

/-- Number of pass-counted search attempts in a trace. -/
def searchCount (t : List Event) : Nat :=
  (t.filter (fun e => match e with | Event.search true => true | _ => false)).length

/-- Every search event after the first element of the trace is immediately
preceded by a clear event. -/
def clearedBefore : List Event → Bool
  | [] => true
  | [_] => true
  | a :: b :: rest =>
    (match a, b with
     | _, Event.clear => true
     | Event.clear, Event.search _ => true
     | Event.search _, Event.search _ => false) && clearedBefore (b :: rest)

/-- A boost property tree, as far as get_costing uses it: a data string
and an ordered list of keyed children.  Keys are modelled as opaque flat
strings (the put_child path splitting on dots does not arise for the flat
option names the merge loop iterates). -/
inductive Ptree where
  | node (data : String) (children : List (String × Ptree))

def Ptree.data : Ptree → String
  | Ptree.node d _ => d

def Ptree.children : Ptree → List (String × Ptree)
  | Ptree.node _ cs => cs

/-- First child with the given key, as ptree get_child finds it. -/
def lookupKey : List (String × Ptree) → String → Option Ptree
  | [], _ => none
  | (k, v) :: rest, key => if k = key then some v else lookupKey rest key

def Ptree.get_child (t : Ptree) (key : String) : Option Ptree :=
  lookupKey t.children key

/-- A two-component path lookup, as get_child_optional resolves the path
costing_options.<mode>. -/
def getChildPath (t : Ptree) (a b : String) : Option Ptree :=
  match t.get_child a with
  | none => none
  | some s => s.get_child b

/-- ptree put_child on a flat key: replace the subtree of the first child
with that key, or append a new child. -/
def putChild : List (String × Ptree) → String → Ptree → List (String × Ptree)
  | [], key, sub => [(key, sub)]
  | (k, v) :: rest, key, sub =>
    if k = key then (k, sub) :: rest else (k, v) :: putChild rest key sub

/-- The merge loop of get_costing (lines 369-371): put_child of every
request child into the config costing subtree, in request order. -/
def mergeChildren (cs rs : List (String × Ptree)) : List (String × Ptree) :=
  rs.foldl (fun acc r => putChild acc r.1 r.2) cs

def mergeCosting (base req : Ptree) : Ptree :=
  Ptree.node base.data (mergeChildren base.children req.children)

/-- The children of the request costing_options.<mode> subtree, or the
empty list when the request supplies none. -/
def reqCostingChildren (request : Ptree) (costing : String) : List (String × Ptree) :=
  match getChildPath request "costing_options" costing with
  | none => []
  | some rc => rc.children

/-- The subtree handed to the factory: the base config subtree with the
request overrides merged in, or the base subtree alone when the request
has no override for this mode. -/
def mergedCosting (base request : Ptree) (costing : String) : Ptree :=
  match getChildPath request "costing_options" costing with
  | none => base
  | some rc => mergeCosting base rc

/-- get_costing (lines 356-374): look up costing_options.<mode> in the
base config, throw when absent, merge in any request overrides, and hand
the merged subtree to the factory (create is the abstract factory). -/
def get_costing {A : Type} (create : String → Ptree → A)
    (config request : Ptree) (costing : String) : Except String A :=
  match getChildPath config "costing_options" costing with
  | none => Except.error ("No costing method found for " ++ costing)
  | some config_costing =>
    Except.ok (create costing (mergedCosting config_costing request costing))

/- Concrete inputs used by the per-claim witnesses and counterexamples. -/

def plC1a : PathLocation := { edges := [{ id := 7, unreachable := false }] }

def plC1b : PathLocation :=
  { edges := [{ id := 9, unreachable := false }, { id := 7, unreachable := false }] }

def plC1c : PathLocation := { edges := [{ id := 3, unreachable := false }] }

def plC1d : PathLocation :=
  { edges := [{ id := 4, unreachable := false }, { id := 3, unreachable := true }] }

def legEnvC2 : LegEnv :=
  { GetBestPath := fun _ => [], BuildTrip := fun p => p,
    DirectionsSummary := fun _ => (0, 0, 0) }

def costC2 : CostModel :=
  { allowMultiPass := false, relaxedHierarchy := none,
    highwayTransitionsDisabled := false }

def statsC2 : PathStatistics := PathStatistics.init (1, 2) (3, 4)

def legEnvC3 : LegEnv :=
  { GetBestPath := fun _ => [], BuildTrip := fun p => p,
    DirectionsSummary := fun _ => (0, 0, 0) }

def envC3 : Env :=
  { locations := [(0, 0), (1, 1)],
    searchLoc := [some { edges := [{ id := 1, unreachable := false }] },
                  some { edges := [{ id := 2, unreachable := false }] }],
    colorsOf := [[5], [5]],
    legEnvs := [legEnvC3],
    routetype := "auto", connectivity := true, multi_run := false,
    iterations := 0, crowDist := [1], units_miles := false, totalMs := 0 }

def costC3 : CostModel :=
  { allowMultiPass := true, relaxedHierarchy := none,
    highwayTransitionsDisabled := false }

def cfgC5 : Ptree :=
  Ptree.node "" [("costing_options", Ptree.node ""
    [("auto", Ptree.node "" [("speed", Ptree.node "30" []),
                             ("weight", Ptree.node "2" [])])])]

def reqC5 : Ptree :=
  Ptree.node "" [("costing_options", Ptree.node ""
    [("auto", Ptree.node "" [("speed", Ptree.node "50" [])])])]

def baseC5 : Ptree :=
  Ptree.node "" [("speed", Ptree.node "30" []), ("weight", Ptree.node "2" [])]

def envC6 : Env :=
  { locations := [(2, 2), (3, 3)],
    searchLoc := [some { edges := [{ id := 4, unreachable := false }] },
                  some { edges := [{ id := 5, unreachable := false }] }],
    colorsOf := [[1], [2]],
    legEnvs := [legEnvC3],
    routetype := "auto", connectivity := true, multi_run := false,
    iterations := 0, crowDist := [2], units_miles := false, totalMs := 0 }

def costC6 : CostModel :=
  { allowMultiPass := false, relaxedHierarchy := none,
    highwayTransitionsDisabled := false }

def legEnvC7 : LegEnv :=
  { GetBestPath := fun _ => [], BuildTrip := fun p => p,
    DirectionsSummary := fun _ => (0, 0, 0) }

def envC7 : Env :=
  { locations := [(0, 0), (1, 1)],
    searchLoc := [some { edges := [{ id := 1, unreachable := true }] },
                  some { edges := [{ id := 2, unreachable := false }] }],
    colorsOf := [],
    legEnvs := [legEnvC7],
    routetype := "auto", connectivity := false, multi_run := false,
    iterations := 0, crowDist := [1], units_miles := false, totalMs := 0 }

def plC7 : List PathLocation :=
  [{ edges := [{ id := 1, unreachable := true }] },
   { edges := [{ id := 2, unreachable := false }] }]

def statsC7 : PathStatistics := PathStatistics.init (0, 0) (1, 1)

def costC7 : CostModel :=
  { allowMultiPass := false, relaxedHierarchy := none,
    highwayTransitionsDisabled := false }

def legEnvOkC8 : LegEnv :=
  { GetBestPath := fun _ => [1], BuildTrip := fun p => p,
    DirectionsSummary := fun _ => (7, 9, 2) }

def legEnvFailC8 : LegEnv :=
  { GetBestPath := fun _ => [], BuildTrip := fun p => p,
    DirectionsSummary := fun _ => (0, 0, 0) }

def envC8 : Env :=
  { locations := [(0, 0), (1, 1), (2, 2)],
    searchLoc := [some { edges := [{ id := 1, unreachable := false }] },
                  some { edges := [{ id := 2, unreachable := false }] },
                  some { edges := [{ id := 3, unreachable := false }] }],
    colorsOf := [],
    legEnvs := [legEnvOkC8, legEnvFailC8],
    routetype := "auto", connectivity := false, multi_run := false,
    iterations := 0, crowDist := [0, 0], units_miles := false, totalMs := 0 }

def costC8 : CostModel :=
  { allowMultiPass := false, relaxedHierarchy := none,
    highwayTransitionsDisabled := false }

def envC8w : Env :=
  { locations := [(4, 4), (5, 5)],
    searchLoc := [some { edges := [{ id := 1, unreachable := false }] },
                  some { edges := [{ id := 2, unreachable := false }] }],
    colorsOf := [],
    legEnvs := [legEnvFailC8],
    routetype := "auto", connectivity := false, multi_run := false,
    iterations := 0, crowDist := [1], units_miles := false, totalMs := 0 }

def legEnvOkC10 : LegEnv :=
  { GetBestPath := fun _ => [2], BuildTrip := fun p => p,
    DirectionsSummary := fun _ => (100, 5, 3) }

def legEnvFailC10 : LegEnv :=
  { GetBestPath := fun _ => [], BuildTrip := fun p => p,
    DirectionsSummary := fun _ => (0, 0, 0) }

def envC10 : Env :=
  { locations := [(0, 0), (1, 1), (2, 2)],
    searchLoc := [some { edges := [{ id := 1, unreachable := false }] },
                  some { edges := [{ id := 2, unreachable := false }] },
                  some { edges := [{ id := 3, unreachable := false }] }],
    colorsOf := [],
    legEnvs := [legEnvOkC10, legEnvFailC10],
    routetype := "auto", connectivity := false, multi_run := false,
    iterations := 0, crowDist := [0, 0], units_miles := false, totalMs := 0 }

def costC10 : CostModel :=
  { allowMultiPass := false, relaxedHierarchy := none,
    highwayTransitionsDisabled := false }

def envC10w : Env :=
  { locations := [(0, 0), (1, 1), (2, 2)],
    searchLoc := [some { edges := [{ id := 1, unreachable := false }] },
                  some { edges := [{ id := 2, unreachable := false }] },
                  some { edges := [{ id := 3, unreachable := false }] }],
    colorsOf := [],
    legEnvs := [legEnvFailC10, legEnvOkC10],
    routetype := "auto", connectivity := false, multi_run := false,
    iterations := 0, crowDist := [0, 0], units_miles := false, totalMs := 0 }

def plC10w : List PathLocation :=
  [{ edges := [{ id := 1, unreachable := false }] },
   { edges := [{ id := 2, unreachable := false }] },
   { edges := [{ id := 3, unreachable := false }] }]

def statsC10w : PathStatistics := PathStatistics.init (0, 0) (2, 2)

def plC8 : List PathLocation :=
  [{ edges := [{ id := 1, unreachable := false }] },
   { edges := [{ id := 2, unreachable := false }] },
   { edges := [{ id := 3, unreachable := false }] }]

/-- The directions summary recorded by the last leg of a k-leg run that
produced a non-empty trip path, threading the statistics and the shared
cost model exactly as the leg loop does; none when every leg of the run
failed.  This is the observable that determines the trip fields of the
emitted record, since each successful leg overwrites them and failing
legs leave them alone. -/
def lastSummary (env : Env) (pl : List PathLocation) :
    Nat → Nat → PathStatistics → CostModel → Option (Nat × Rat × Nat)
  | _, 0, _, _ => none
  | i, k + 1, stats, cost =>
    let cur : Option (Nat × Rat × Nat) :=
      if (legPathTest env pl i stats cost).trip.nodes.length > 0 then
        some ((env.legEnvs.getD i defaultLegEnv).DirectionsSummary
          (legPathTest env pl i stats cost).trip.nodes)
      else none
    match lastSummary env pl (i + 1) k (runLeg env pl i stats cost).1
        (runLeg env pl i stats cost).2.1 with
    | some s => some s
    | none => cur

/-- True when the run emits its record without any leg having produced a
non-empty trip path: a location-correlation failure, a negative
connectivity verdict (no leg runs at all), or every leg of the loop
failing. -/
def noLegSucceeded (env : Env) (cost : CostModel) : Bool :=
  match collectSome env.searchLoc with
  | none => true
  | some pl =>
    if env.connectivity &&
        !(codeConnected ((env.colorsOf.getLast?).getD []) env.locations.length) then
      true
    else
      (lastSummary env pl 0 (env.locations.length - 1)
        (PathStatistics.init (env.locations.getD 0 (0, 0))
          (env.locations.getD (env.locations.length - 1) (0, 0))) cost).isNone

/- Shared helper lemmas about traces and the PathTest retry protocol. -/

theorem searchCount_append (s t : List Event) :
    searchCount (s ++ t) = searchCount s + searchCount t := by
  simp [searchCount, List.filter_append]

theorem searchCount_multiRunEvents (n : Nat) :
    searchCount (multiRunEvents n) = 0 := by
  induction n with
  | zero => rfl
  | succ k ih => simpa [multiRunEvents, searchCount, List.filter] using ih

theorem searchCount_ite_multiRun (mr : Bool) (it : Nat) :
    searchCount (if mr then multiRunEvents it else []) = 0 := by
  cases mr
  · rfl
  · simpa using searchCount_multiRunEvents it

theorem clearedBefore_clear_multiRun (n : Nat) :
    clearedBefore (Event.clear :: multiRunEvents n) = true := by
  induction n with
  | zero => rfl
  | succ k ih => simpa [multiRunEvents, clearedBefore] using ih

theorem cb_tail (mr : Bool) (it : Nat) :
    clearedBefore (Event.clear :: (if mr then multiRunEvents it else [])) = true := by
  cases mr
  · rfl
  · simpa using clearedBefore_clear_multiRun it

theorem cb_cons_clear (a : Event) (rest : List Event)
    (h : clearedBefore (Event.clear :: rest) = true) :
    clearedBefore (a :: Event.clear :: rest) = true := by
  simpa [clearedBefore] using h

theorem cb_clear_search (b : Bool) (rest : List Event)
    (h : clearedBefore (Event.search b :: rest) = true) :
    clearedBefore (Event.clear :: Event.search b :: rest) = true := by
  simpa [clearedBefore] using h

theorem searchCount_nil : searchCount [] = 0 := rfl

theorem searchCount_cons_clear (t : List Event) :
    searchCount (Event.clear :: t) = searchCount t := by
  simp [searchCount]

theorem searchCount_cons_true (t : List Event) :
    searchCount (Event.search true :: t) = searchCount t + 1 := by
  simp [searchCount]

theorem searchCount_cons_false (t : List Event) :
    searchCount (Event.search false :: t) = searchCount t := by
  simp [searchCount]

theorem PathTest_frame (env : LegEnv) (cost : CostModel) (stats : PathStatistics)
    (mr : Bool) (it : Nat) (ua : Bool) :
    (PathTest env cost stats mr it ua).stats.success = stats.success ∧
    (PathTest env cost stats mr it ua).stats.trip_time = stats.trip_time ∧
    (PathTest env cost stats mr it ua).stats.trip_dist = stats.trip_dist ∧
    (PathTest env cost stats mr it ua).stats.manuevers = stats.manuevers ∧
    (PathTest env cost stats mr it ua).stats.origin = stats.origin ∧
    (PathTest env cost stats mr it ua).stats.destination = stats.destination ∧
    (PathTest env cost stats mr it ua).stats.runtime = stats.runtime ∧
    (PathTest env cost stats mr it ua).stats.arc_dist = stats.arc_dist := by
  unfold PathTest thirdPass successTail
  dsimp only
  repeat' split
  all_goals simp [PathStatistics.incPasses]

theorem PathTest_passes (env : LegEnv) (cost : CostModel) (stats : PathStatistics)
    (mr : Bool) (it : Nat) (ua : Bool) :
    (PathTest env cost stats mr it ua).stats.passes =
      (stats.passes + searchCount (PathTest env cost stats mr it ua).trace) % U32 := by
  unfold PathTest thirdPass successTail
  dsimp only
  repeat' split
  all_goals simp [PathStatistics.incPasses, searchCount_append,
    searchCount_ite_multiRun, searchCount_cons_true, searchCount_cons_clear,
    searchCount_cons_false, searchCount_nil, searchCount_multiRunEvents,
    Nat.mod_add_mod]

theorem PathTest_searchCount_le (env : LegEnv) (cost : CostModel)
    (stats : PathStatistics) (mr : Bool) (it : Nat) (ua : Bool) :
    searchCount (PathTest env cost stats mr it ua).trace ≤ 3 := by
  unfold PathTest thirdPass successTail
  dsimp only
  repeat' split
  all_goals simp [searchCount_append, searchCount_ite_multiRun,
    searchCount_cons_true, searchCount_cons_clear, searchCount_cons_false,
    searchCount_nil, searchCount_multiRunEvents]

theorem PathTest_clearedBefore (env : LegEnv) (cost : CostModel)
    (stats : PathStatistics) (mr : Bool) (it : Nat) (ua : Bool) :
    clearedBefore (PathTest env cost stats mr it ua).trace = true := by
  unfold PathTest thirdPass successTail
  dsimp only
  repeat' split
  all_goals simp only [List.append_assoc, List.cons_append, List.nil_append]
  all_goals first
    | rfl
    | (repeat first
        | exact cb_tail _ _
        | exact clearedBefore_clear_multiRun _
        | apply cb_cons_clear
        | apply cb_clear_search)

theorem lookupKey_putChild_self (cs : List (String × Ptree)) (k : String) (v : Ptree) :
    lookupKey (putChild cs k v) k = some v := by
  induction cs with
  | nil => simp [putChild, lookupKey]
  | cons hd t ih =>
    obtain ⟨k1, v1⟩ := hd
    by_cases hk : k1 = k
    · subst hk; simp [putChild, lookupKey]
    · simp [putChild, hk, lookupKey, ih]

theorem lookupKey_putChild_other (cs : List (String × Ptree)) (k2 k : String) (v : Ptree)
    (h : k2 ≠ k) :
    lookupKey (putChild cs k2 v) k = lookupKey cs k := by
  induction cs with
  | nil => simp [putChild, lookupKey, h]
  | cons hd t ih =>
    obtain ⟨k1, v1⟩ := hd
    by_cases h1 : k1 = k2
    · subst h1; simp [putChild, lookupKey, h]
    · by_cases h2 : k1 = k
      · subst h2; simp [putChild, h1, lookupKey]
      · simp [putChild, h1, lookupKey, h2, ih]

theorem lookupKey_mergeChildren_not_mem :
    ∀ (rs cs : List (String × Ptree)) (k : String),
      (∀ p ∈ rs, p.1 ≠ k) →
      lookupKey (mergeChildren cs rs) k = lookupKey cs k
  | [], _, _, _ => rfl
  | hd :: t, cs, k, h => by
    have h1 : hd.1 ≠ k := h hd (by simp)
    have h2 : ∀ p ∈ t, p.1 ≠ k := fun p hp => h p (by simp [hp])
    calc lookupKey (mergeChildren (putChild cs hd.1 hd.2) t) k
        = lookupKey (putChild cs hd.1 hd.2) k :=
          lookupKey_mergeChildren_not_mem t _ k h2
      _ = lookupKey cs k := lookupKey_putChild_other _ _ _ _ h1

theorem lookupKey_mergeChildren_mem :
    ∀ (rs cs : List (String × Ptree)) (k : String) (v : Ptree),
      (rs.map Prod.fst).Nodup → lookupKey rs k = some v →
      lookupKey (mergeChildren cs rs) k = some v
  | [], _, _, _, _, h => by simp [lookupKey] at h
  | (k1, v1) :: t, cs, k, v, hnd, h => by
    have hnd2 : (k1 :: t.map Prod.fst).Nodup := by simpa using hnd
    rcases List.nodup_cons.mp hnd2 with ⟨hmem, hnd3⟩
    by_cases hk : k1 = k
    · subst hk
      have hv : v1 = v := by simpa [lookupKey] using h
      subst hv
      have hnot : ∀ p ∈ t, p.1 ≠ k1 := by
        intro p hp heq
        exact hmem (heq ▸ List.mem_map_of_mem Prod.fst hp)
      calc lookupKey (mergeChildren (putChild cs k1 v1) t) k1
          = lookupKey (putChild cs k1 v1) k1 :=
            lookupKey_mergeChildren_not_mem t _ k1 hnot
        _ = some v1 := lookupKey_putChild_self _ _ _
    · have h2 : lookupKey t k = some v := by simpa [lookupKey, hk] using h
      exact lookupKey_mergeChildren_mem t (putChild cs k1 v1) k v hnd3 h2

theorem lookupKey_none_not_mem (rs : List (String × Ptree)) (k : String)
    (h : lookupKey rs k = none) : ∀ p ∈ rs, p.1 ≠ k := by
  induction rs with
  | nil => intro p hp; cases hp
  | cons hd t ih =>
    obtain ⟨k1, v1⟩ := hd
    intro p hp
    by_cases hk : k1 = k
    · simp [lookupKey, hk] at h
    · rcases List.mem_cons.mp hp with h1 | h1
      · subst h1; exact hk
      · exact ih (by simpa [lookupKey, hk] using h) p h1

theorem collectSome_isSome (l : List (Option PathLocation))
    (h : l.all Option.isSome = true) : ∃ pl, collectSome l = some pl := by
  induction l with
  | nil => exact ⟨[], rfl⟩
  | cons hd t ih =>
    cases hd with
    | none => simp [List.all_cons, Option.isSome] at h
    | some x =>
      obtain ⟨pl, hpl⟩ := ih (by simpa [List.all_cons] using h)
      exact ⟨x :: pl, by simp [collectSome, hpl]⟩

/-- C1 (counterexample): the claim says a shared candidate edge id forces
the direct strategy for every travel mode; for the pedestrian route type
the code fixes the bidirectional strategy even though plC1a and plC1b
share edge id 7. -/
theorem pedestrian_shared_edge_not_direct :
    (plC1a.edges.any fun e1 => plC1b.edges.any fun e2 => e1.id == e2.id) = true ∧
    chooseAlgorithm "pedestrian" plC1a plC1b = Algo.bd ∧
    Algo.bd ≠ Algo.astar :=
  ⟨by decide, by decide, by decide⟩

/-- C1 (amended): for every travel mode other than multimodal and
pedestrian, a leg whose origin and destination candidate sets share an
edge id is given the direct (astar) strategy. -/
theorem shared_edge_selects_direct (rt : String) (o d : PathLocation)
    (h1 : rt ≠ "multimodal") (h2 : rt ≠ "pedestrian")
    (h3 : (o.edges.any fun e1 => d.edges.any fun e2 => e1.id == e2.id) = true) :
    chooseAlgorithm rt o d = Algo.astar := by
  simp [chooseAlgorithm, h1, h2, h3]

/-- C1 (witness): shared_edge_selects_direct at the auto route type and two
candidate sets sharing edge id 3. -/
theorem shared_edge_selects_direct_witness :
    ("auto" : String) ≠ "multimodal" ∧ ("auto" : String) ≠ "pedestrian" ∧
    (plC1c.edges.any fun e1 => plC1d.edges.any fun e2 => e1.id == e2.id) = true ∧
    chooseAlgorithm "auto" plC1c plC1d = Algo.astar :=
  ⟨by decide, by decide, by decide,
    shared_edge_selects_direct "auto" plC1c plC1d (by decide) (by decide) (by decide)⟩

/-- C2 (counterexample): with the direct (astar) strategy, a first empty
attempt under a cost model that is not multi-pass eligible does not end
the leg after one pass: the code performs one further attempt, so two
passes and two counted searches occur. -/
theorem direct_not_eligible_two_passes :
    (PathTest legEnvC2 costC2 statsC2 false 0 true).stats.passes = 2 ∧
    (PathTest legEnvC2 costC2 statsC2 false 0 true).trip.nodes = [] ∧
    searchCount (PathTest legEnvC2 costC2 statsC2 false 0 true).trace = 2 :=
  ⟨by decide, by decide, by decide⟩

/-- C2 (amended): if the first attempt of a leg returns empty and the cost
model is not multi-pass eligible, then with any non-direct strategy no
further attempt occurs and the leg fails after exactly one pass; with the
direct strategy the orchestrator still performs one further attempt with
highway transitions disabled, so two passes occur, and the leg fails only
if that attempt is also empty. -/
theorem first_empty_not_eligible (env : LegEnv) (cost : CostModel)
    (stats : PathStatistics) (mr : Bool) (it : Nat)
    (h1 : env.GetBestPath cost = [])
    (h2 : cost.allowMultiPass = false) :
    PathTest env cost stats mr it false =
      { trip := { nodes := [] }, stats := stats.incPasses, cost := cost,
        trace := [Event.search true] } ∧
    (PathTest env cost stats mr it true).stats = stats.incPasses.incPasses ∧
    (env.GetBestPath (DisableHighwayTransitions cost) = [] →
      PathTest env cost stats mr it true =
        { trip := { nodes := [] }, stats := stats.incPasses.incPasses,
          cost := DisableHighwayTransitions cost,
          trace := [Event.search true, Event.clear, Event.search true] }) := by
  refine ⟨?_, ?_, ?_⟩
  · simp [PathTest, h1, h2, thirdPass]
  · by_cases h3 : env.GetBestPath (DisableHighwayTransitions cost) = []
    · simp [PathTest, h1, h2, thirdPass, h3]
    · simp [PathTest, h1, h2, thirdPass, h3, successTail]
  · intro h3
    simp [PathTest, h1, h2, thirdPass, h3]

/-- C2 (witness): first_empty_not_eligible at the concrete failing leg
environment legEnvC2. -/
theorem first_empty_not_eligible_witness :
    legEnvC2.GetBestPath costC2 = [] ∧ costC2.allowMultiPass = false ∧
    (PathTest legEnvC2 costC2 statsC2 true 5 false).stats = statsC2.incPasses := by
  refine ⟨rfl, rfl, ?_⟩
  rw [(first_empty_not_eligible legEnvC2 costC2 statsC2 true 5 rfl rfl).1]

/-- C3 (code bug): at a request whose two waypoints each lie in the single
connectivity color 5 the spec-modelled pre-check declares the request
connected, but the code, which builds its color counts from the
destination waypoint candidates only, reports fail_no_connectivity and
performs no search (empty engine trace, zero passes, failure exit). -/
theorem connectivity_counts_last_location_only :
    specConnected envC3.colorsOf = true ∧
    (runMain envC3 costC3).stats.success = "fail_no_connectivity" ∧
    (runMain envC3 costC3).stats.passes = 0 ∧
    (runMain envC3 costC3).trace = [] ∧
    (runMain envC3 costC3).exit_failure = true :=
  ⟨by decide, by decide, by decide, by decide, by decide⟩

/-- C4 (confirmed): per leg, PathTest performs at most 3 counted search
attempts, the pass counter advances exactly with the counted attempts, and
in the engine event trace every search invocation after the first is
immediately preceded by a clear of the engine working state. -/
theorem at_most_three_passes_cleared (env : LegEnv) (cost : CostModel)
    (stats : PathStatistics) (mr : Bool) (it : Nat) (ua : Bool) :
    searchCount (PathTest env cost stats mr it ua).trace ≤ 3 ∧
    clearedBefore (PathTest env cost stats mr it ua).trace = true ∧
    (PathTest env cost stats mr it ua).stats.passes =
      (stats.passes + searchCount (PathTest env cost stats mr it ua).trace) % U32 :=
  ⟨PathTest_searchCount_le env cost stats mr it ua,
   PathTest_clearedBefore env cost stats mr it ua,
   PathTest_passes env cost stats mr it ua⟩

/-- C5 (confirmed): get_costing fails exactly when the base configuration
lacks the costing_options subtree for the mode; otherwise it returns the
model built from the merged subtree, in which request values replace
same-named base values, base fields without a request counterpart are
unchanged, and request fields without a base counterpart are added. -/
theorem get_costing_correct {A : Type} (create : String → Ptree → A)
    (config request : Ptree) (costing : String)
    (hnd : ((reqCostingChildren request costing).map Prod.fst).Nodup) :
    ((∃ e, get_costing create config request costing = Except.error e) ↔
      getChildPath config "costing_options" costing = none) ∧
    (∀ base, getChildPath config "costing_options" costing = some base →
      get_costing create config request costing =
        Except.ok (create costing (mergedCosting base request costing)) ∧
      (∀ k v, lookupKey (reqCostingChildren request costing) k = some v →
        lookupKey (mergedCosting base request costing).children k = some v) ∧
      (∀ k, lookupKey (reqCostingChildren request costing) k = none →
        lookupKey (mergedCosting base request costing).children k =
          lookupKey base.children k)) := by
  constructor
  · constructor
    · rintro ⟨e, he⟩
      cases hcfg : getChildPath config "costing_options" costing with
      | none => rfl
      | some b => simp [get_costing, hcfg] at he
    · intro hcfg
      exact ⟨"No costing method found for " ++ costing, by simp [get_costing, hcfg]⟩
  · intro base hbase
    refine ⟨by simp [get_costing, hbase], ?_, ?_⟩
    · intro k v hv
      cases hreq : getChildPath request "costing_options" costing with
      | none => simp [reqCostingChildren, hreq, lookupKey] at hv
      | some rc =>
        have hnd2 : (rc.children.map Prod.fst).Nodup := by
          simpa [reqCostingChildren, hreq] using hnd
        have hv2 : lookupKey rc.children k = some v := by
          simpa [reqCostingChildren, hreq] using hv
        simp only [mergedCosting, hreq, mergeCosting, Ptree.children]
        exact lookupKey_mergeChildren_mem rc.children base.children k v hnd2 hv2
    · intro k hk
      cases hreq : getChildPath request "costing_options" costing with
      | none => simp [mergedCosting, hreq]
      | some rc =>
        have hk2 : lookupKey rc.children k = none := by
          simpa [reqCostingChildren, hreq] using hk
        simp only [mergedCosting, hreq, mergeCosting, Ptree.children]
        exact lookupKey_mergeChildren_not_mem rc.children base.children k
          (lookupKey_none_not_mem rc.children k hk2)

/-- C5 (witness): get_costing_correct at a concrete base subtree with two
fields and a request override of one of them: the overridden field takes
the request value, the unrelated base field is preserved. -/
theorem get_costing_correct_witness :
    get_costing (fun _ t => t) cfgC5 reqC5 "auto" =
      Except.ok (mergedCosting baseC5 reqC5 "auto") ∧
    lookupKey (mergedCosting baseC5 reqC5 "auto").children "speed" =
      some (Ptree.node "50" []) ∧
    lookupKey (mergedCosting baseC5 reqC5 "auto").children "weight" =
      some (Ptree.node "2" []) := by
  have h := (get_costing_correct (fun _ t => t) cfgC5 reqC5 "auto"
    (by decide)).2 baseC5 rfl
  refine ⟨h.1, ?_, ?_⟩
  · have := h.2.1 "speed" (Ptree.node "50" []) rfl
    simpa using this
  · have := h.2.2 "weight" rfl
    simpa using this

/-- C6 (confirmed): when the connectivity flag is set, every waypoint was
resolved, and the code connectivity verdict is negative, the run records
fail_no_connectivity, emits the record whose outcome field says so and
whose pass-count field is 0, performs no search attempt (empty engine
trace) and exits with failure. -/
theorem no_connectivity_fails_fast (env : Env) (cost : CostModel)
    (hc : env.connectivity = true)
    (hs : env.searchLoc.all Option.isSome = true)
    (hcc : codeConnected ((env.colorsOf.getLast?).getD [])
      env.locations.length = false) :
    (runMain env cost).stats.success = "fail_no_connectivity" ∧
    (runMain env cost).stats.passes = 0 ∧
    (runMain env cost).record.getD 4 (StatField.nat 0) =
      StatField.str "fail_no_connectivity" ∧
    (runMain env cost).record.getD 5 (StatField.str "") = StatField.nat 0 ∧
    (runMain env cost).trace = [] ∧
    (runMain env cost).exit_failure = true := by
  obtain ⟨pl, hpl⟩ := collectSome_isSome env.searchLoc hs
  have hmain : mainStats env cost =
      (true, (PathStatistics.init (env.locations.getD 0 (0, 0))
        (env.locations.getD (env.locations.length - 1) (0, 0))).setSuccess
          "fail_no_connectivity", []) := by
    unfold mainStats
    rw [hpl]
    simp [hc, hcc]
  refine ⟨?_, ?_, ?_, ?_, ?_, ?_⟩ <;>
    simp [runMain, hmain, PathStatistics.setSuccess, PathStatistics.init,
      PathStatistics.log, List.getD]

/-- C6 (witness): no_connectivity_fails_fast at the concrete disconnected
request envC6. -/
theorem no_connectivity_fails_fast_witness :
    envC6.connectivity = true ∧
    (runMain envC6 costC6).stats.success = "fail_no_connectivity" ∧
    (runMain envC6 costC6).stats.passes = 0 ∧
    (runMain envC6 costC6).trace = [] :=
  ⟨rfl, (no_connectivity_fails_fast envC6 costC6 rfl (by decide) (by decide)).1,
   (no_connectivity_fails_fast envC6 costC6 rfl (by decide) (by decide)).2.1,
   (no_connectivity_fails_fast envC6 costC6 rfl (by decide) (by decide)).2.2.2.2.1⟩

/-- C7 (confirmed): a leg that ends with an empty trip path after all its
passes is classified solely from the candidate unreachable flags of its
two endpoints: both have an unreachable candidate gives
fail_unreachable_locations, only the origin fail_unreachable_origin, only
the destination fail_unreachable_dest, neither fail_no_route. -/
theorem failed_leg_classified (env : Env) (pl : List PathLocation) (i : Nat)
    (stats : PathStatistics) (cost : CostModel)
    (h : (legPathTest env pl i stats cost).trip.nodes = []) :
    (runLeg env pl i stats cost).1.success =
      classify ((pl.getD i { edges := [] }).edges.any (fun e => e.unreachable))
        ((pl.getD (i + 1) { edges := [] }).edges.any (fun e => e.unreachable)) ∧
    classify true true = "fail_unreachable_locations" ∧
    classify true false = "fail_unreachable_origin" ∧
    classify false true = "fail_unreachable_dest" ∧
    classify false false = "fail_no_route" := by
  refine ⟨?_, rfl, rfl, rfl, rfl⟩
  unfold runLeg
  simp [h, PathStatistics.setSuccess]

/-- C7 (witness): failed_leg_classified at a concrete failing leg whose
origin candidate set contains an unreachable edge and whose destination
candidates are all reachable. -/
theorem failed_leg_classified_witness :
    (legPathTest envC7 plC7 0 statsC7 costC7).trip.nodes = [] ∧
    (runLeg envC7 plC7 0 statsC7 costC7).1.success = "fail_unreachable_origin" := by
  refine ⟨by decide, ?_⟩
  rw [(failed_leg_classified envC7 plC7 0 statsC7 costC7 (by decide)).1]
  decide

theorem runLegs_one (env : Env) (pl : List PathLocation) (i : Nat)
    (stats : PathStatistics) (cost : CostModel) :
    runLegs env pl i 1 stats cost =
      ((runLeg env pl i stats cost).1, (runLeg env pl i stats cost).2.1,
       (runLeg env pl i stats cost).2.2) := by
  show runLegs env pl i (0 + 1) stats cost = _
  simp [runLegs]

theorem runLeg_success_or_frame (env : Env) (pl : List PathLocation) (i : Nat)
    (stats : PathStatistics) (cost : CostModel) :
    (runLeg env pl i stats cost).1.success = "success" ∨
    ((runLeg env pl i stats cost).1.trip_time = stats.trip_time ∧
     (runLeg env pl i stats cost).1.trip_dist = stats.trip_dist ∧
     (runLeg env pl i stats cost).1.manuevers = stats.manuevers) := by
  have hf := PathTest_frame (env.legEnvs.getD i defaultLegEnv) cost stats
    env.multi_run env.iterations (legUsingAstar env pl i)
  unfold runLeg
  dsimp only
  split
  · left
    simp [PathStatistics.setSuccess, PathStatistics.setManuevers,
      PathStatistics.setTripDist, PathStatistics.setTripTime]
  · right
    simp only [legPathTest, PathStatistics.setSuccess]
    exact ⟨hf.2.1, hf.2.2.1, hf.2.2.2.1⟩

theorem runLeg_success_values (env : Env) (pl : List PathLocation) (i : Nat)
    (stats : PathStatistics) (cost : CostModel)
    (h : (legPathTest env pl i stats cost).trip.nodes.length > 0) :
    (runLeg env pl i stats cost).1.trip_time =
      ((env.legEnvs.getD i defaultLegEnv).DirectionsSummary
        (legPathTest env pl i stats cost).trip.nodes).1 ∧
    (runLeg env pl i stats cost).1.trip_dist =
      ((env.legEnvs.getD i defaultLegEnv).DirectionsSummary
        (legPathTest env pl i stats cost).trip.nodes).2.1 ∧
    (runLeg env pl i stats cost).1.manuevers =
      ((env.legEnvs.getD i defaultLegEnv).DirectionsSummary
        (legPathTest env pl i stats cost).trip.nodes).2.2 := by
  unfold runLeg
  dsimp only
  rw [if_pos h]
  simp [PathStatistics.setSuccess, PathStatistics.setManuevers,
    PathStatistics.setTripDist, PathStatistics.setTripTime]

theorem runLeg_fail_trip_frame (env : Env) (pl : List PathLocation) (i : Nat)
    (stats : PathStatistics) (cost : CostModel)
    (h : ¬ (legPathTest env pl i stats cost).trip.nodes.length > 0) :
    (runLeg env pl i stats cost).1.trip_time = stats.trip_time ∧
    (runLeg env pl i stats cost).1.trip_dist = stats.trip_dist ∧
    (runLeg env pl i stats cost).1.manuevers = stats.manuevers := by
  have hframe := PathTest_frame (env.legEnvs.getD i defaultLegEnv) cost stats
    env.multi_run env.iterations (legUsingAstar env pl i)
  unfold runLeg
  dsimp only
  rw [if_neg h]
  simp only [legPathTest, PathStatistics.setSuccess]
  exact ⟨hframe.2.1, hframe.2.2.1, hframe.2.2.2.1⟩

theorem runLegs_trip_values (env : Env) (pl : List PathLocation) :
    ∀ (k i : Nat) (stats : PathStatistics) (cost : CostModel),
      (lastSummary env pl i k stats cost = none →
        (runLegs env pl i k stats cost).1.trip_time = stats.trip_time ∧
        (runLegs env pl i k stats cost).1.trip_dist = stats.trip_dist ∧
        (runLegs env pl i k stats cost).1.manuevers = stats.manuevers) ∧
      (∀ t d m, lastSummary env pl i k stats cost = some (t, d, m) →
        (runLegs env pl i k stats cost).1.trip_time = t ∧
        (runLegs env pl i k stats cost).1.trip_dist = d ∧
        (runLegs env pl i k stats cost).1.manuevers = m) := by
  intro k
  induction k with
  | zero =>
    intro i stats cost
    constructor
    · intro _
      exact ⟨rfl, rfl, rfl⟩
    · intro t d m h
      exact Option.noConfusion h
  | succ k ih =>
    intro i stats cost
    have hrl : (runLegs env pl i (k + 1) stats cost).1 =
        (runLegs env pl (i + 1) k (runLeg env pl i stats cost).1
          (runLeg env pl i stats cost).2.1).1 := rfl
    cases hrest : lastSummary env pl (i + 1) k (runLeg env pl i stats cost).1
        (runLeg env pl i stats cost).2.1 with
    | some s =>
      have hls : lastSummary env pl i (k + 1) stats cost = some s := by
        show (match lastSummary env pl (i + 1) k (runLeg env pl i stats cost).1
            (runLeg env pl i stats cost).2.1 with
          | some s => some s
          | none =>
            if (legPathTest env pl i stats cost).trip.nodes.length > 0 then
              some ((env.legEnvs.getD i defaultLegEnv).DirectionsSummary
                (legPathTest env pl i stats cost).trip.nodes)
            else none) = some s
        rw [hrest]
      constructor
      · intro hnone
        rw [hls] at hnone
        exact Option.noConfusion hnone
      · intro t d m hsome
        rw [hls] at hsome
        injection hsome with hs
        have hv := (ih (i + 1) (runLeg env pl i stats cost).1
          (runLeg env pl i stats cost).2.1).2 t d m (by rw [hrest, hs])
        rw [hrl]
        exact hv
    | none =>
      have hls : lastSummary env pl i (k + 1) stats cost =
          (if (legPathTest env pl i stats cost).trip.nodes.length > 0 then
            some ((env.legEnvs.getD i defaultLegEnv).DirectionsSummary
              (legPathTest env pl i stats cost).trip.nodes)
          else none) := by
        show (match lastSummary env pl (i + 1) k (runLeg env pl i stats cost).1
            (runLeg env pl i stats cost).2.1 with
          | some s => some s
          | none =>
            if (legPathTest env pl i stats cost).trip.nodes.length > 0 then
              some ((env.legEnvs.getD i defaultLegEnv).DirectionsSummary
                (legPathTest env pl i stats cost).trip.nodes)
            else none) = _
        rw [hrest]
      have hih := (ih (i + 1) (runLeg env pl i stats cost).1
        (runLeg env pl i stats cost).2.1).1 hrest
      by_cases hc : (legPathTest env pl i stats cost).trip.nodes.length > 0
      · rw [if_pos hc] at hls
        have hcomp := runLeg_success_values env pl i stats cost hc
        constructor
        · intro hnone
          rw [hls] at hnone
          exact Option.noConfusion hnone
        · intro t d m hsome
          rw [hls] at hsome
          injection hsome with hs
          rw [hrl]
          refine ⟨?_, ?_, ?_⟩
          · rw [hih.1, hcomp.1, hs]
          · rw [hih.2.1, hcomp.2.1, hs]
          · rw [hih.2.2, hcomp.2.2, hs]
      · rw [if_neg hc] at hls
        have hfr := runLeg_fail_trip_frame env pl i stats cost hc
        constructor
        · intro _
          rw [hrl]
          exact ⟨by rw [hih.1, hfr.1], by rw [hih.2.1, hfr.2.1],
            by rw [hih.2.2, hfr.2.2]⟩
        · intro t d m hsome
          rw [hls] at hsome
          exact Option.noConfusion hsome

/-- C8 (amended): every emitted record has exactly 11 fields in the fixed
order origin_lat, origin_lon, dest_lat, dest_lon, outcome, pass_count,
runtime_ms, trip_time_s, trip_distance, straight_line_distance,
maneuver_count, for success and for every failure kind alike; the trip
time, trip distance and maneuver fields are zero-valued whenever no leg
of the request succeeded (location-correlation failure, negative
connectivity verdict, or every leg failing), and whenever some leg
succeeded they carry the directions summary recorded by the last
successful leg, even when the final outcome is a failure. -/
theorem record_eleven_fields (env : Env) (cost : CostModel) :
    (runMain env cost).record =
      [StatField.rat (runMain env cost).stats.origin.1,
       StatField.rat (runMain env cost).stats.origin.2,
       StatField.rat (runMain env cost).stats.destination.1,
       StatField.rat (runMain env cost).stats.destination.2,
       StatField.str (runMain env cost).stats.success,
       StatField.nat (runMain env cost).stats.passes,
       StatField.nat (runMain env cost).stats.runtime,
       StatField.nat (runMain env cost).stats.trip_time,
       StatField.rat (runMain env cost).stats.trip_dist,
       StatField.rat (runMain env cost).stats.arc_dist,
       StatField.nat (runMain env cost).stats.manuevers] ∧
    (runMain env cost).record.length = 11 ∧
    (noLegSucceeded env cost = true →
      (runMain env cost).stats.trip_time = 0 ∧
      (runMain env cost).stats.trip_dist = 0 ∧
      (runMain env cost).stats.manuevers = 0) ∧
    (∀ pl t d m, collectSome env.searchLoc = some pl →
      (env.connectivity &&
        !(codeConnected ((env.colorsOf.getLast?).getD [])
          env.locations.length)) = false →
      lastSummary env pl 0 (env.locations.length - 1)
        (PathStatistics.init (env.locations.getD 0 (0, 0))
          (env.locations.getD (env.locations.length - 1) (0, 0))) cost =
        some (t, d, m) →
      (runMain env cost).stats.trip_time = t ∧
      (runMain env cost).stats.trip_dist = d ∧
      (runMain env cost).stats.manuevers = m) := by
  refine ⟨rfl, rfl, ?_, ?_⟩
  · intro hnone
    rw [show (runMain env cost).stats = (mainStats env cost).2.1 from rfl]
    unfold mainStats
    unfold noLegSucceeded at hnone
    cases hcs : collectSome env.searchLoc with
    | none =>
      dsimp only
      simp [PathStatistics.setSuccess, PathStatistics.init]
    | some pl =>
      rw [hcs] at hnone
      dsimp only at hnone ⊢
      cases hcon : env.connectivity &&
          !(codeConnected ((env.colorsOf.getLast?).getD []) env.locations.length) with
      | true =>
        simp [PathStatistics.setSuccess, PathStatistics.init]
      | false =>
        rw [hcon] at hnone
        simp only [Bool.false_eq_true, if_false] at hnone ⊢
        have hnone2 := Option.isNone_iff_eq_none.mp hnone
        have hz := (runLegs_trip_values env pl (env.locations.length - 1) 0
          (PathStatistics.init (env.locations.getD 0 (0, 0))
            (env.locations.getD (env.locations.length - 1) (0, 0))) cost).1 hnone2
        simp only [PathStatistics.addRuntime, PathStatistics.setArcDist]
        exact ⟨by rw [hz.1]; rfl, by rw [hz.2.1]; rfl, by rw [hz.2.2]; rfl⟩
  · intro pl t d m hcs hcon hsum
    rw [show (runMain env cost).stats = (mainStats env cost).2.1 from rfl]
    unfold mainStats
    rw [hcs]
    dsimp only
    rw [hcon]
    simp only [Bool.false_eq_true, if_false]
    have hv := (runLegs_trip_values env pl (env.locations.length - 1) 0
      (PathStatistics.init (env.locations.getD 0 (0, 0))
        (env.locations.getD (env.locations.length - 1) (0, 0))) cost).2 t d m hsum
    simp only [PathStatistics.addRuntime, PathStatistics.setArcDist]
    exact ⟨hv.1, hv.2.1, hv.2.2⟩

theorem PathTest_multi_run_frame (env : LegEnv) (cost : CostModel)
    (stats : PathStatistics) (it it2 : Nat) (ua : Bool) :
    (PathTest env cost stats true it ua).trip =
      (PathTest env cost stats false it2 ua).trip ∧
    (PathTest env cost stats true it ua).stats =
      (PathTest env cost stats false it2 ua).stats ∧
    (PathTest env cost stats true it ua).cost =
      (PathTest env cost stats false it2 ua).cost ∧
    searchCount (PathTest env cost stats true it ua).trace =
      searchCount (PathTest env cost stats false it2 ua).trace := by
  by_cases h1 : env.GetBestPath cost = []
  · by_cases h2 : cost.allowMultiPass = true
    · by_cases h3 : env.GetBestPath
          (RelaxHierarchyLimits cost ua (expansion_within_factor ua)) = []
      · cases ua with
        | false => simp [PathTest, thirdPass, successTail, h1, h2, h3]
        | true =>
          by_cases h4 : env.GetBestPath (DisableHighwayTransitions
              (RelaxHierarchyLimits cost true (expansion_within_factor true))) = []
          · simp [PathTest, thirdPass, successTail, h1, h2, h3, h4]
          · simp [PathTest, thirdPass, successTail, h1, h2, h3, h4,
              searchCount_append, searchCount_ite_multiRun, searchCount_multiRunEvents,
              searchCount_cons_true, searchCount_cons_clear, searchCount_cons_false,
              searchCount_nil]
      · simp [PathTest, thirdPass, successTail, h1, h2, h3, searchCount_append,
          searchCount_ite_multiRun, searchCount_multiRunEvents,
          searchCount_cons_true, searchCount_cons_clear, searchCount_cons_false,
          searchCount_nil]
    · cases ua with
      | false => simp [PathTest, thirdPass, successTail, h1, h2]
      | true =>
        by_cases h4 : env.GetBestPath (DisableHighwayTransitions cost) = []
        · simp [PathTest, thirdPass, successTail, h1, h2, h4]
        · simp [PathTest, thirdPass, successTail, h1, h2, h4, searchCount_append,
            searchCount_ite_multiRun, searchCount_multiRunEvents,
            searchCount_cons_true, searchCount_cons_clear, searchCount_cons_false,
            searchCount_nil]
  · simp [PathTest, thirdPass, successTail, h1, searchCount_append,
      searchCount_ite_multiRun, searchCount_multiRunEvents, searchCount_cons_true,
      searchCount_cons_clear, searchCount_cons_false, searchCount_nil]

/-- C9 (confirmed): enabling the diagnostic multi-run mode for a leg leaves
the leg statistics (pass counter, outcome classification, trip time, trip
distance, maneuver count), the cost model state and the number of counted
search attempts unchanged; the repeated runs only append uncounted timing
events to the engine trace. -/
theorem multi_run_frame_effect (env : Env) (pl : List PathLocation)
    (i it : Nat) (stats : PathStatistics) (cost : CostModel) :
    (runLeg { env with multi_run := true, iterations := it } pl i stats cost).1 =
      (runLeg { env with multi_run := false } pl i stats cost).1 ∧
    (runLeg { env with multi_run := true, iterations := it } pl i stats cost).2.1 =
      (runLeg { env with multi_run := false } pl i stats cost).2.1 ∧
    searchCount
        (runLeg { env with multi_run := true, iterations := it } pl i stats cost).2.2 =
      searchCount (runLeg { env with multi_run := false } pl i stats cost).2.2 := by
  have h := PathTest_multi_run_frame (env.legEnvs.getD i defaultLegEnv) cost stats
    it env.iterations (legUsingAstar env pl i)
  unfold runLeg legPathTest
  dsimp only [legUsingAstar]
  dsimp only [legUsingAstar] at h
  rw [h.1, h.2.1, h.2.2.1]
  refine ⟨?_, ?_, ?_⟩ <;> split <;>
    first
      | rfl
      | exact h.2.2.2

theorem runLegs_last (env : Env) (pl : List PathLocation) :
    ∀ (k i : Nat) (stats : PathStatistics) (cost : CostModel),
      runLegs env pl i (k + 1) stats cost =
        ((runLeg env pl (i + k) (runLegs env pl i k stats cost).1
            (runLegs env pl i k stats cost).2.1).1,
         (runLeg env pl (i + k) (runLegs env pl i k stats cost).1
            (runLegs env pl i k stats cost).2.1).2.1,
         (runLegs env pl i k stats cost).2.2 ++
           (runLeg env pl (i + k) (runLegs env pl i k stats cost).1
              (runLegs env pl i k stats cost).2.1).2.2) := by
  intro k
  induction k with
  | zero =>
    intro i stats cost
    simp [runLegs]
  | succ k ih =>
    intro i stats cost
    have e1 : runLegs env pl i (k + 1 + 1) stats cost =
        ((runLegs env pl (i + 1) (k + 1) (runLeg env pl i stats cost).1
            (runLeg env pl i stats cost).2.1).1,
         (runLegs env pl (i + 1) (k + 1) (runLeg env pl i stats cost).1
            (runLeg env pl i stats cost).2.1).2.1,
         (runLeg env pl i stats cost).2.2 ++
           (runLegs env pl (i + 1) (k + 1) (runLeg env pl i stats cost).1
              (runLeg env pl i stats cost).2.1).2.2) := rfl
    have e2 : runLegs env pl i (k + 1) stats cost =
        ((runLegs env pl (i + 1) k (runLeg env pl i stats cost).1
            (runLeg env pl i stats cost).2.1).1,
         (runLegs env pl (i + 1) k (runLeg env pl i stats cost).1
            (runLeg env pl i stats cost).2.1).2.1,
         (runLeg env pl i stats cost).2.2 ++
           (runLegs env pl (i + 1) k (runLeg env pl i stats cost).1
              (runLeg env pl i stats cost).2.1).2.2) := rfl
    rw [e1, ih (i + 1) (runLeg env pl i stats cost).1
      (runLeg env pl i stats cost).2.1, e2]
    have harith : i + 1 + k = i + (k + 1) := by omega
    rw [harith]
    dsimp only
    simp [List.append_assoc]

/-- C10 (amended): across the legs of a request, the outcome and the trip
statistics are overwritten, not accumulated: a successful leg sets outcome
success and the trip time, distance and maneuver count of that leg alone,
a failing leg sets the outcome from its own reachability classification
and leaves the trip fields as they were from earlier legs; the pass
counter accumulates the counted search attempts of every leg modulo 2 to
the 32; and running k plus 1 legs equals running k legs and then the last
leg on the accumulated state, so a request whose final leg succeeds emits
outcome success even when an earlier leg failed. -/
theorem legs_overwrite (env : Env) (pl : List PathLocation) (j i k : Nat)
    (s stats : PathStatistics) (c cost : CostModel) :
    ((legPathTest env pl j s c).trip.nodes.length > 0 →
      (runLeg env pl j s c).1.success = "success" ∧
      (runLeg env pl j s c).1.trip_time =
        ((env.legEnvs.getD j defaultLegEnv).DirectionsSummary
          (legPathTest env pl j s c).trip.nodes).1 ∧
      (runLeg env pl j s c).1.trip_dist =
        ((env.legEnvs.getD j defaultLegEnv).DirectionsSummary
          (legPathTest env pl j s c).trip.nodes).2.1 ∧
      (runLeg env pl j s c).1.manuevers =
        ((env.legEnvs.getD j defaultLegEnv).DirectionsSummary
          (legPathTest env pl j s c).trip.nodes).2.2) ∧
    ((legPathTest env pl j s c).trip.nodes.length = 0 →
      (runLeg env pl j s c).1.success =
        classify ((pl.getD j { edges := [] }).edges.any (fun e => e.unreachable))
          ((pl.getD (j + 1) { edges := [] }).edges.any (fun e => e.unreachable)) ∧
      (runLeg env pl j s c).1.trip_time = s.trip_time ∧
      (runLeg env pl j s c).1.trip_dist = s.trip_dist ∧
      (runLeg env pl j s c).1.manuevers = s.manuevers) ∧
    (runLeg env pl j s c).1.passes =
      (s.passes + searchCount (legPathTest env pl j s c).trace) % U32 ∧
    runLegs env pl i (k + 1) stats cost =
      ((runLeg env pl (i + k) (runLegs env pl i k stats cost).1
          (runLegs env pl i k stats cost).2.1).1,
       (runLeg env pl (i + k) (runLegs env pl i k stats cost).1
          (runLegs env pl i k stats cost).2.1).2.1,
       (runLegs env pl i k stats cost).2.2 ++
         (runLeg env pl (i + k) (runLegs env pl i k stats cost).1
            (runLegs env pl i k stats cost).2.1).2.2) := by
  have hframe := PathTest_frame (env.legEnvs.getD j defaultLegEnv) c s
    env.multi_run env.iterations (legUsingAstar env pl j)
  refine ⟨?_, ?_, ?_, runLegs_last env pl k i stats cost⟩
  · intro h
    unfold runLeg
    dsimp only
    rw [if_pos h]
    simp [PathStatistics.setSuccess, PathStatistics.setManuevers,
      PathStatistics.setTripDist, PathStatistics.setTripTime]
  · intro h
    unfold runLeg
    dsimp only
    rw [if_neg (by omega : ¬ (legPathTest env pl j s c).trip.nodes.length > 0)]
    simp only [legPathTest, PathStatistics.setSuccess]
    refine ⟨?_, hframe.2.1, hframe.2.2.1, hframe.2.2.2.1⟩
    trivial
  · unfold runLeg
    dsimp only
    split
    · simp only [legPathTest, PathStatistics.setSuccess, PathStatistics.setManuevers,
        PathStatistics.setTripDist, PathStatistics.setTripTime]
      exact PathTest_passes (env.legEnvs.getD j defaultLegEnv) c s
        env.multi_run env.iterations (legUsingAstar env pl j)
    · simp only [legPathTest, PathStatistics.setSuccess]
      exact PathTest_passes (env.legEnvs.getD j defaultLegEnv) c s
        env.multi_run env.iterations (legUsingAstar env pl j)

/-- C8 (counterexample): a three-waypoint request whose first leg succeeds
with trip distance 9 and whose final leg fails emits a failure record in
which the trip time, trip distance and maneuver fields are not zero, so
the distance and maneuver fields are not zero-valued on every failure. -/
theorem failure_record_nonzero_trip_fields :
    (runMain envC8 costC8).stats.success = "fail_no_route" ∧
    (runMain envC8 costC8).record.getD 8 (StatField.nat 0) = StatField.rat 9 ∧
    (runMain envC8 costC8).record.getD 10 (StatField.rat 0) = StatField.nat 2 ∧
    StatField.rat 9 ≠ StatField.rat 0 ∧ StatField.nat 2 ≠ StatField.nat 0 :=
  ⟨by decide, by decide, by decide, by decide, by decide⟩

/-- C8 (witness): record_eleven_fields at two concrete requests: the
two-waypoint failing request envC8w, where no leg succeeded and the trip
fields of the 11-field record are zero, and the three-waypoint request
envC8, where the last successful leg recorded the summary (7, 9, 2) and
the failure record carries exactly those values. -/
theorem record_eleven_fields_witness :
    noLegSucceeded envC8w costC8 = true ∧
    (runMain envC8w costC8).record.length = 11 ∧
    (runMain envC8w costC8).stats.trip_time = 0 ∧
    (runMain envC8w costC8).stats.trip_dist = 0 ∧
    (runMain envC8w costC8).stats.manuevers = 0 ∧
    (runMain envC8 costC8).record.length = 11 ∧
    (runMain envC8 costC8).stats.trip_time = 7 ∧
    (runMain envC8 costC8).stats.trip_dist = 9 ∧
    (runMain envC8 costC8).stats.manuevers = 2 := by
  have h1 := record_eleven_fields envC8w costC8
  have h2 := record_eleven_fields envC8 costC8
  have hz := h1.2.2.1 (by decide)
  have hv := h2.2.2.2 plC8 7 9 2 (by decide) (by decide) (by decide)
  exact ⟨by decide, h1.2.1, hz.1, hz.2.1, hz.2.2, h2.2.1, hv.1, hv.2.1, hv.2.2⟩

/-- C10 (counterexample): in envC10 the first leg succeeds with trip time
100, trip distance 5 and 3 maneuvers and the final leg fails; the emitted
record carries the failure outcome of the last leg but the trip statistics
of the first leg, so the emitted trip values are not those of the last leg. -/
theorem trip_stats_survive_failed_last_leg :
    (runMain envC10 costC10).stats.success = "fail_no_route" ∧
    (runMain envC10 costC10).stats.trip_time = 100 ∧
    (runMain envC10 costC10).stats.trip_dist = 5 ∧
    (runMain envC10 costC10).stats.manuevers = 3 ∧
    (runMain envC10 costC10).stats.passes = 2 ∧
    (100 : Nat) ≠ 0 ∧ (5 : Rat) ≠ 0 ∧ (3 : Nat) ≠ 0 :=
  ⟨by decide, by decide, by decide, by decide, by decide, by decide, by decide,
   by decide⟩

/-- C10 (witness): legs_overwrite at the concrete request envC10w whose
first leg fails and whose final leg succeeds: the two-leg run ends with
outcome success. -/
theorem legs_overwrite_witness :
    (legPathTest envC10w plC10w 1
       (runLegs envC10w plC10w 0 1 statsC10w costC10).1
       (runLegs envC10w plC10w 0 1 statsC10w costC10).2.1).trip.nodes.length > 0 ∧
    (runLegs envC10w plC10w 0 2 statsC10w costC10).1.success = "success" := by
  have h := legs_overwrite envC10w plC10w 1 0 1
    (runLegs envC10w plC10w 0 1 statsC10w costC10).1 statsC10w
    (runLegs envC10w plC10w 0 1 statsC10w costC10).2.1 costC10
  refine ⟨by decide, ?_⟩
  rw [h.2.2.2]
  exact (h.1 (by decide)).1
